import Mathlib

/-!
Shallow embedding of src/export_legacy_policy_bundle.py, a one-shot script
that logs in to a controller, fetches gateway details, optionally VPC route
tables and the Any-Web group, exports six Terraform resource kinds, and
bundles the staged files into one zip archive.

Modelling conventions: Python dictionaries are association lists from
string keys to string values, updated and read through dictInsert and
dictGet; parsed JSON bodies are such lists (or typed records where the code
reads a fixed shape); Python exceptions are PyError values threaded through
Except; the network is an oracle function supplied to each operation, a
none answer standing for a response whose body lacks the key the code
reads. The file system seen by the bundling step is the list of staged
file names on disk.
-/

namespace Avx

/-- Exceptions raised by the Python runtime in the embedded script: a
KeyError for a missing dictionary key, BadZipFile for an invalid archive
passed to zipfile, and UnboundLocalError for reading a local variable that
was never assigned. -/
inductive PyError where
  | keyError (k : String)
  | badZipFile
  | unboundLocal
deriving DecidableEq

/-- Assignment d[k] = v on a Python dictionary modelled as an association
list: the value of an existing key is replaced in place, a new key is
appended at the end (Python dictionaries keep insertion order). -/
def dictInsert : List (String × String) → String → String → List (String × String)
  | [], k, v => [(k, v)]
  | (a, b) :: t, k, v => if a = k then (k, v) :: t else (a, b) :: dictInsert t k v

/-- Lookup d[k] on a Python dictionary; none stands for the case where
Python would raise KeyError. -/
def dictGet : List (String × String) → String → Option String
  | [], _ => none
  | (a, b) :: t, k => if a = k then some b else dictGet t k

/-- Test whether the first character list is an initial segment of the
second. -/
def leadsChars : List Char → List Char → Bool
  | [], _ => true
  | _ :: _, [] => false
  | a :: as, b :: bs => a == b && leadsChars as bs

/-- Embedding of the Python containment test needle in haystack on
strings: the needle occurs contiguously inside the haystack. -/
def hasSubstr (n : List Char) : List Char → Bool
  | [] => leadsChars n []
  | c :: t => leadsChars n (c :: t) || hasSubstr n t

/-- Marker whose presence in the request path selects the newer versioned
API surface in aviatrix_api_call (line 71 of the script). -/
def v25marker : List Char := "/v2.5/".toList

/-- Condition of line 71 of the script: the path holds the versioned
marker. -/
def isV25 (path : String) : Bool := hasSubstr v25marker path.toList

/-- HTTP response as the script sees it: status code plus the parsed JSON
object body as an association list. -/
structure HttpResponse where
  status : Nat
  body : List (String × String)
deriving DecidableEq

/-- Embedding of login (lines 38 to 65). The input is none when the POST
raised at transport level before the response variable was assigned, in
which case the return line raises UnboundLocalError. A non-2xx status only
makes raise_for_status throw HTTPError, which the except clause catches and
prints; control then reaches the line return response.json () ["CID"]
regardless of the status, so the status field is never consulted for the
result. A body without the CID key raises KeyError there. -/
def login (resp : Option HttpResponse) : Except PyError String :=
  match resp with
  | none => Except.error PyError.unboundLocal
  | some r =>
    match dictGet r.body "CID" with
    | some cid => Except.ok cid
    | none => Except.error (PyError.keyError "CID")

/-- Request issued by a requests.get call: url, query parameters and
headers. -/
structure ApiRequest where
  url : String
  params : List (String × String)
  headers : List (String × String)
deriving DecidableEq

/-- Embedding of aviatrix_api_call (lines 68 to 90). Returns the issued
request, the value of the params dictionary object after the call (on the
legacy branch the function mutates the very dictionary the caller passed,
setting its CID key before issuing the request), and the number of HTTP
attempts made (each branch performs exactly one requests.get, and there is
no retry loop). -/
def aviatrix_api_call (controller_ip path cid : String)
    (params : List (String × String)) : ApiRequest × List (String × String) × Nat :=
  if isV25 path then
    (⟨"https://" ++ controller_ip ++ path, params,
      [("Authorization", "cid " ++ cid)]⟩, params, 1)
  else
    (⟨"https://" ++ controller_ip ++ path, dictInsert params "CID" cid, []⟩,
     dictInsert params "CID" cid, 1)

/-- Call of aviatrix_api_call with the params argument omitted: Python then
binds params to the one shared default dictionary object created when the
def line was evaluated. The argument shared is the current value of that
object; the second component of the result is its value after the call. -/
def callNoParams (shared : List (String × String)) (controller_ip path cid : String) :
    ApiRequest × List (String × String) :=
  ((aviatrix_api_call controller_ip path cid shared).1,
   (aviatrix_api_call controller_ip path cid shared).2.1)

/-- One gateway record from the list_vpcs_summary results, keeping the two
fields get_vpc_routes reads. -/
structure Gateway where
  vpc_id : String
  gw_name : String
deriving DecidableEq

/-- Dictionary vpcs built by get_vpc_routes (lines 103 to 105): one entry
per vpc_id, the value being the gw_name of the gateway that wrote last. -/
def buildVpcs (gws : List Gateway) : List (String × String) :=
  gws.foldl (fun d g => dictInsert d g.vpc_id g.gw_name) []

/-- Name of the last gateway in the list whose vpc_id equals v, if any. -/
def lastGwName : List Gateway → String → Option String
  | [], _ => none
  | g :: t, v =>
    match lastGwName t v with
    | some n => some n
    | none => if g.vpc_id = v then some g.gw_name else none

/-- Loop of get_vpc_routes (lines 108 to 112). The oracle fetch gives, per
gateway name, the results field of the parsed route response, or none when
that response body lacks the results key, in which case the subscript
raises KeyError and the whole loop aborts: nothing built so far is
returned. On success the result is the vpc_routes dictionary paired with
the list of gateway names that were passed to the API, one per fetch
issued. -/
def getRoutesLoop (fetch : String → Option (List String)) :
    List (String × String) → Except PyError (List (String × List String) × List String)
  | [] => Except.ok ([], [])
  | (vpc, gw) :: rest =>
    match fetch gw with
    | none => Except.error (PyError.keyError "results")
    | some rs =>
      match getRoutesLoop fetch rest with
      | Except.error e => Except.error e
      | Except.ok (m, calls) => Except.ok ((vpc, rs) :: m, gw :: calls)

/-- Embedding of get_vpc_routes (lines 100 to 113): build the vpcs
dictionary from the gateway details, then fetch one route table per key. -/
def get_vpc_routes (fetch : String → Option (List String)) (gws : List Gateway) :
    Except PyError (List (String × List String) × List String) :=
  getRoutesLoop fetch (buildVpcs gws)

/-- One app-domain record, keeping the field the script reads. -/
structure AppDomain where
  name : String
deriving DecidableEq

/-- Embedding of get_any_webgroup_id (lines 116 to 121). The input is the
app_domains field of the parsed response, or none when the body lacks that
key (then the subscript raises KeyError). The code filters the list for
records whose name equals Any-Web and returns the filtered list. -/
def get_any_webgroup_id (body : Option (List AppDomain)) : Except PyError (List AppDomain) :=
  match body with
  | none => Except.error (PyError.keyError "app_domains")
  | some doms => Except.ok (doms.filter (fun x => x.name == "Any-Web"))

/-- Downloaded body of an export_terraform_resource call as zipfile sees
it: either not a parsable archive at all, or an archive with a list of
entry names. -/
inductive TfResponse where
  | notArchive
  | archive (entries : List String)
deriving DecidableEq

/-- Body of the try block of get_tf_resources (lines 128 to 130): parse the
downloaded bytes as a zip archive and extract the entry named
resource.tf. -/
def tryExtract (resp : TfResponse) (resource : String) : Except PyError String :=
  match resp with
  | TfResponse.notArchive => Except.error PyError.badZipFile
  | TfResponse.archive es =>
    if (resource ++ ".tf") ∈ es then Except.ok (resource ++ ".tf")
    else Except.error (PyError.keyError (resource ++ ".tf"))

/-- Embedding of get_tf_resources (lines 124 to 132): the bare except
clause catches every extraction error and prints a message naming the
resource, so the function always returns normally, giving the extracted
file name, if any, and the printed log lines. -/
def get_tf_resources (resp : TfResponse) (resource : String) : Option String × List String :=
  match tryExtract resp resource with
  | Except.ok f => (some f, [])
  | Except.error _ => (none, ["Could not extract TF resource " ++ resource])

/-- Fixed export list of main (lines 167 to 168). -/
def resources : List String :=
  ["firewall", "firewall_policy", "firewall_tag", "fqdn", "fqdn_pass_through", "fqdn_tag_rule"]

/-- Export loop of main (lines 169 to 170) over a resource list: collects
the extracted files on disk and the printed log lines, in order. -/
def exportLoop (resp : String → TfResponse) : List String → List String × List String
  | [] => ([], [])
  | r :: rest =>
    ((get_tf_resources (resp r) r).1.toList ++ (exportLoop resp rest).1,
     (get_tf_resources (resp r) r).2 ++ (exportLoop resp rest).2)

/-- State after the bundling loop of main: the entries written into the
zip archive in order, the staged files still on disk, and whether the loop
finished without raising FileNotFoundError. -/
structure BundleState where
  entries : List String
  disk : List String
  ok : Bool
deriving DecidableEq

/-- Loop of main (lines 181 to 185): for each file name in order, write it
into the archive and then delete it from disk; a missing file raises
FileNotFoundError, which the handler only prints, leaving the entries
already written inside the archive and the remaining files untouched. -/
def bundleLoop : List String → List String → BundleState
  | disk, [] => ⟨[], disk, true⟩
  | disk, f :: rest =>
    if f ∈ disk then
      ⟨f :: (bundleLoop (disk.erase f) rest).entries,
       (bundleLoop (disk.erase f) rest).disk,
       (bundleLoop (disk.erase f) rest).ok⟩
    else ⟨[], disk, false⟩

/-- File list built by main (lines 172 to 178): one name per resource kind
plus gateway_details.json, plus the optional JSON artifacts selected by
the two flags. -/
def bundleFiles (any_web vpc_routes : Bool) : List String :=
  resources.map (fun r => r ++ ".tf")
    ++ (["gateway_details.json"]
        ++ (if any_web then ["any_webgroup.json"] else [])
        ++ (if vpc_routes then ["vpc_route_tables.json"] else []))

/-- Outcome of the bundling step of main (lines 179 to 191). The
constructor ZipFile with mode w creates the archive file at the output
path before any entry is written, and the finally clause always closes it,
so an archive file exists at the output path on every path through this
block; outputArchive records its entry list. stagedRemaining is what is
left of the staged files, and raisedFsError records whether the
FileNotFoundError handler ran (it only prints; the process still exits
normally). -/
structure MainBundleResult where
  outputArchive : Option (List String)
  stagedRemaining : List String
  raisedFsError : Bool
deriving DecidableEq

/-- Embedding of the bundling step of main (lines 179 to 191). -/
def mainBundle (disk : List String) (files : List String) : MainBundleResult :=
  ⟨some (bundleLoop disk files).entries, (bundleLoop disk files).disk,
   !(bundleLoop disk files).ok⟩

/-- Tail of main: the export loop over the fixed resource list followed by
the bundling step; otherStaged are the JSON artifacts main staged before
the export loop. The second component is the log of extraction
failures. -/
def mainRun (resp : String → TfResponse) (otherStaged : List String) (aw vr : Bool) :
    MainBundleResult × List String :=
  (mainBundle ((exportLoop resp resources).1 ++ otherStaged) (bundleFiles aw vr),
   (exportLoop resp resources).2)

/-- Fixture for C2: the route fetch for gw1 succeeds, the one for gw2
returns a body without the results key. -/
def fetchC2 : String → Option (List String) :=
  fun gw => if gw = "gw1" then some ["r1"] else none

/-- Fixture for C2: two gateways in distinct VPCs. -/
def gwsC2 : List Gateway := [⟨"vpc1", "gw1"⟩, ⟨"vpc2", "gw2"⟩]

/-- Fixture for C10: two gateways sharing vpc_id v1 and one in v2. -/
def gwsC10 : List Gateway := [⟨"v1", "gwA"⟩, ⟨"v1", "gwB"⟩, ⟨"v2", "gwC"⟩]

/-- Fixture for C10: every route fetch succeeds, echoing the gateway
name. -/
def fetchC10 : String → Option (List String) := fun gw => some [gw]

/-- Expected route mapping for the C10 fixture. -/
def mC10 : List (String × List String) := [("v1", ["gwB"]), ("v2", ["gwC"])]

/-- Expected fetch calls for the C10 fixture. -/
def callsC10 : List String := ["gwB", "gwC"]

/-- Fixture for C7: an app-domain listing with groups, none named
Any-Web. -/
def domsC7 : List AppDomain := [⟨"Foo"⟩, ⟨"Bar"⟩]

/-- Fixture for C6: the firewall export download is not a valid archive,
every other resource kind downloads an archive holding its entry. -/
def respC6 : String → TfResponse :=
  fun r => if r = "firewall" then TfResponse.notArchive else TfResponse.archive [r ++ ".tf"]

/-- Fixture for C4: only firewall.tf and gateway_details.json were staged;
the other expected files are missing when bundling starts. -/
def diskC4 : List String := ["firewall.tf", "gateway_details.json"]

/-- C1: the claim says an invalid-credentials login (non-2xx status or
body without a token) fails with AuthError and constructs no session.
Evaluating the embedded login shows otherwise: a 401 response whose body
carries a CID is accepted and its CID returned as the session token; a
body lacking CID raises KeyError, not an AuthError; a transport failure
raises UnboundLocalError on the return line. -/
theorem c1_login_ignores_http_error :
    login (some ⟨401, [("CID", "abc")]⟩) = Except.ok "abc"
    ∧ login (some ⟨200, []⟩) = Except.error (PyError.keyError "CID")
    ∧ login none = Except.error PyError.unboundLocal :=
  ⟨rfl, rfl, rfl⟩

/-- C2: the claim says a route-table fetch failure is recorded per gateway
key without aborting sibling fetches and the mapping keeps the N minus M
successful entries. Evaluating the embedded get_vpc_routes on two gateways
whose second fetch returns a body without the results key shows the whole
operation aborting with KeyError: no mapping at all is returned, the
successful sibling entry included. -/
theorem c2_route_failure_aborts_all :
    get_vpc_routes fetchC2 gwsC2 = Except.error (PyError.keyError "results") :=
  rfl

/-- C4: the claim says a failed entry write removes the partially-written
archive, deletes no staged file, and fails with BundleError naming the
missing files. Evaluating the embedded bundling step on a staging area
where firewall.tf exists but firewall_policy.tf is missing shows the
opposite: the archive stays at the output path already holding
firewall.tf, firewall.tf has been deleted from disk, and the handler only
prints a generic message. -/
theorem c4_partial_bundle_keeps_archive_loses_files :
    mainBundle diskC4 (bundleFiles false false)
      = ⟨some ["firewall.tf"], ["gateway_details.json"], true⟩ :=
  rfl

/-- C5: the claim says a run staging zero artifacts transitions to Failed
and produces no archive at the output path. Evaluating the embedded
bundling step with an empty staging area (and with a staging area holding
only a file of a failed gateway fetch) shows an empty archive being
created at the output path while the handler merely prints and the process
exits normally. -/
theorem c5_zero_staged_still_writes_empty_archive :
    mainBundle [] (bundleFiles false false) = ⟨some [], [], true⟩
    ∧ mainBundle ["gateway_details.json"] (bundleFiles false false)
        = ⟨some [], ["gateway_details.json"], true⟩ :=
  ⟨rfl, rfl⟩

theorem dictGet_dictInsert_self (d : List (String × String)) (k v : String) :
    dictGet (dictInsert d k v) k = some v := by
  induction d with
  | nil => simp [dictInsert, dictGet]
  | cons p t ih =>
    obtain ⟨a, b⟩ := p
    by_cases h : a = k
    · subst h
      simp [dictInsert, dictGet]
    · simp [dictInsert, dictGet, h, ih]

theorem dictGet_dictInsert_ne (d : List (String × String)) (k v k' : String)
    (h : k' ≠ k) : dictGet (dictInsert d k v) k' = dictGet d k' := by
  have hkk : ¬k = k' := fun hh => h hh.symm
  induction d with
  | nil => simp [dictInsert, dictGet, hkk]
  | cons p t ih =>
    obtain ⟨a, b⟩ := p
    by_cases hak : a = k
    · subst hak
      simp [dictInsert, dictGet, hkk]
    · by_cases hak' : a = k'
      · simp [dictInsert, dictGet, hak, hak', h]
      · simp [dictInsert, dictGet, hak, hak', ih]

theorem mem_keys_dictInsert (d : List (String × String)) (k v x : String) :
    x ∈ (dictInsert d k v).map Prod.fst ↔ x = k ∨ x ∈ d.map Prod.fst := by
  induction d with
  | nil => simp [dictInsert]
  | cons p t ih =>
    obtain ⟨a, b⟩ := p
    by_cases hak : a = k
    · subst hak
      simp [dictInsert]
    · simp [dictInsert, hak, ih]
      tauto

theorem nodup_keys_dictInsert (d : List (String × String)) (k v : String)
    (h : (d.map Prod.fst).Nodup) : ((dictInsert d k v).map Prod.fst).Nodup := by
  induction d with
  | nil => simp [dictInsert]
  | cons p t ih =>
    obtain ⟨a, b⟩ := p
    simp only [List.map_cons, List.nodup_cons] at h
    by_cases hak : a = k
    · subst hak
      simpa [dictInsert] using h
    · have hkeys : (dictInsert ((a, b) :: t) k v).map Prod.fst
          = a :: (dictInsert t k v).map Prod.fst := by simp [dictInsert, hak]
      rw [hkeys]
      refine List.nodup_cons.mpr ⟨?_, ih h.2⟩
      rw [mem_keys_dictInsert]
      exact fun hc => hc.elim hak h.1

/-- C7: for every API response listing app-domain groups in which no group
is named Any-Web, even when other groups are present, get_any_webgroup_id
returns an empty result rather than an error. -/
theorem c7_anyweb_absent_returns_empty (doms : List AppDomain)
    (h : ∀ d ∈ doms, d.name ≠ "Any-Web") :
    get_any_webgroup_id (some doms) = Except.ok [] := by
  simp only [get_any_webgroup_id, Except.ok.injEq]
  rw [List.filter_eq_nil_iff]
  intro d hd
  simp [h d hd]

/-- Witness for C7 on a fixture response holding two other groups. -/
theorem c7_anyweb_absent_returns_empty_witness :
    get_any_webgroup_id (some domsC7) = Except.ok [] :=
  c7_anyweb_absent_returns_empty domsC7 (by decide)

/-- C8: every API call makes exactly one HTTP attempt; when the path holds
the versioned marker the token travels only in the Authorization header
and the query parameters stay exactly the callers parameters; otherwise
the token is injected into the query parameters under the key CID
alongside every other caller parameter, and no header is sent. -/
theorem c8_auth_placement (host path cid : String) (params : List (String × String)) :
    (aviatrix_api_call host path cid params).2.2 = 1
    ∧ (isV25 path = true →
        (aviatrix_api_call host path cid params).1.headers
            = [("Authorization", "cid " ++ cid)]
        ∧ (aviatrix_api_call host path cid params).1.params = params)
    ∧ (isV25 path = false →
        (aviatrix_api_call host path cid params).1.headers = []
        ∧ dictGet (aviatrix_api_call host path cid params).1.params "CID" = some cid
        ∧ ∀ k, k ≠ "CID" →
            dictGet (aviatrix_api_call host path cid params).1.params k
              = dictGet params k) := by
  by_cases h : isV25 path = true
  · simp [aviatrix_api_call, h]
  · have h' : isV25 path = false := by
      simpa using h
    refine ⟨?_, ?_, ?_⟩
    · simp [aviatrix_api_call, h']
    · intro hc
      rw [hc] at h'
      cases h'
    · intro _
      refine ⟨?_, ?_, ?_⟩
      · simp [aviatrix_api_call, h']
      · simp [aviatrix_api_call, h', dictGet_dictInsert_self]
      · intro k hk
        simp only [aviatrix_api_call, h', Bool.false_eq_true, if_false]
        exact dictGet_dictInsert_ne params "CID" cid k hk

/-- Witness for C8: a legacy-path call with empty parameters gets the
token as a CID query parameter and no header; a versioned-path call keeps
the caller parameters untouched and sends the token in the Authorization
header; both make one attempt. -/
theorem c8_auth_placement_witness :
    (aviatrix_api_call "ip" "/v2/api" "tok" []).2.2 = 1
    ∧ (aviatrix_api_call "ip" "/v2/api" "tok" []).1.headers = []
    ∧ dictGet (aviatrix_api_call "ip" "/v2/api" "tok" []).1.params "CID" = some "tok"
    ∧ dictGet (aviatrix_api_call "ip" "/v2/api" "tok" [("action", "x")]).1.params "action"
        = some "x"
    ∧ (aviatrix_api_call "ip" "/v2.5/api/app-domains" "tok" [("a", "b")]).1.headers
        = [("Authorization", "cid " ++ "tok")]
    ∧ (aviatrix_api_call "ip" "/v2.5/api/app-domains" "tok" [("a", "b")]).1.params
        = [("a", "b")] := by
  refine ⟨(c8_auth_placement "ip" "/v2/api" "tok" []).1, ?_, ?_, ?_, ?_, ?_⟩
  · exact ((c8_auth_placement "ip" "/v2/api" "tok" []).2.2 (by decide)).1
  · exact ((c8_auth_placement "ip" "/v2/api" "tok" []).2.2 (by decide)).2.1
  · exact (((c8_auth_placement "ip" "/v2/api" "tok" [("action", "x")]).2.2
      (by decide)).2.2 "action" (by decide)).trans (by decide)
  · exact ((c8_auth_placement "ip" "/v2.5/api/app-domains" "tok" [("a", "b")]).2.1
      (by decide)).1
  · exact ((c8_auth_placement "ip" "/v2.5/api/app-domains" "tok" [("a", "b")]).2.1
      (by decide)).2

/-- C9: on a legacy path the call mutates the params dictionary in place,
setting CID to the session token before issuing the request (the request
carries the very dictionary object), and when that dictionary is the
shared default of the omitted params argument the token stays in it for
subsequent calls: a later no-params call on a versioned path still sends
the stale CID as a query parameter, a later no-params legacy call
overwrites it. -/
theorem c9_shared_default_mutation (shared : List (String × String))
    (host path cid host2 path2 cid2 : String)
    (h : isV25 path = false) :
    (callNoParams shared host path cid).1.params = (callNoParams shared host path cid).2
    ∧ dictGet (callNoParams shared host path cid).2 "CID" = some cid
    ∧ dictGet (callNoParams (callNoParams shared host path cid).2 host2 path2 cid2).1.params
          "CID"
        = some (if isV25 path2 = true then cid else cid2) := by
  refine ⟨?_, ?_, ?_⟩
  · simp [callNoParams, aviatrix_api_call, h]
  · simp [callNoParams, aviatrix_api_call, h, dictGet_dictInsert_self]
  · by_cases h2 : isV25 path2 = true
    · simp [callNoParams, aviatrix_api_call, h, h2, dictGet_dictInsert_self]
    · have h2' : isV25 path2 = false := by simpa using h2
      simp [callNoParams, aviatrix_api_call, h, h2', dictGet_dictInsert_self]

/-- Witness for C9: a no-params legacy call with token tok leaves CID tok
in the shared default, and a following no-params call on the versioned
path sends that stale token in its query parameters. -/
theorem c9_shared_default_mutation_witness :
    (callNoParams [] "ip" "/v2/api" "tok").1.params = (callNoParams [] "ip" "/v2/api" "tok").2
    ∧ dictGet (callNoParams [] "ip" "/v2/api" "tok").2 "CID" = some "tok"
    ∧ dictGet (callNoParams (callNoParams [] "ip" "/v2/api" "tok").2 "ip"
          "/v2.5/api/app-domains" "tok2").1.params "CID"
        = some (if isV25 "/v2.5/api/app-domains" = true then "tok" else "tok2") :=
  c9_shared_default_mutation [] "ip" "/v2/api" "tok" "ip" "/v2.5/api/app-domains" "tok2"
    (by decide)

theorem dictGet_foldVpcs (gws : List Gateway) :
    ∀ (d : List (String × String)) (v : String),
      dictGet (gws.foldl (fun d g => dictInsert d g.vpc_id g.gw_name) d) v
        = match lastGwName gws v with
          | some n => some n
          | none => dictGet d v := by
  induction gws with
  | nil =>
    intro d v
    simp [lastGwName]
  | cons g t ih =>
    intro d v
    rw [List.foldl_cons, ih (dictInsert d g.vpc_id g.gw_name) v]
    cases hl : lastGwName t v with
    | some n => simp [lastGwName, hl]
    | none =>
      by_cases hv : g.vpc_id = v
      · subst hv
        simp [lastGwName, hl, dictGet_dictInsert_self]
      · simp [lastGwName, hl, hv,
          dictGet_dictInsert_ne d g.vpc_id g.gw_name v (fun hh => hv hh.symm)]

theorem dictGet_buildVpcs (gws : List Gateway) (v : String) :
    dictGet (buildVpcs gws) v = lastGwName gws v := by
  rw [buildVpcs, dictGet_foldVpcs]
  cases hl : lastGwName gws v <;> simp [dictGet]

theorem mem_keys_foldVpcs (gws : List Gateway) :
    ∀ (d : List (String × String)) (x : String),
      x ∈ (gws.foldl (fun d g => dictInsert d g.vpc_id g.gw_name) d).map Prod.fst
        ↔ x ∈ d.map Prod.fst ∨ x ∈ gws.map Gateway.vpc_id := by
  induction gws with
  | nil =>
    intro d x
    simp
  | cons g t ih =>
    intro d x
    rw [List.foldl_cons, ih, mem_keys_dictInsert]
    simp
    tauto

theorem mem_keys_buildVpcs (gws : List Gateway) (x : String) :
    x ∈ (buildVpcs gws).map Prod.fst ↔ x ∈ gws.map Gateway.vpc_id := by
  rw [buildVpcs, mem_keys_foldVpcs]
  simp

theorem nodup_keys_foldVpcs (gws : List Gateway) :
    ∀ d : List (String × String), (d.map Prod.fst).Nodup →
      ((gws.foldl (fun d g => dictInsert d g.vpc_id g.gw_name) d).map Prod.fst).Nodup := by
  induction gws with
  | nil =>
    intro d h
    simpa using h
  | cons g t ih =>
    intro d h
    rw [List.foldl_cons]
    exact ih _ (nodup_keys_dictInsert d g.vpc_id g.gw_name h)

theorem nodup_keys_buildVpcs (gws : List Gateway) :
    ((buildVpcs gws).map Prod.fst).Nodup :=
  nodup_keys_foldVpcs gws [] (by simp)

theorem getRoutesLoop_ok (fetch : String → Option (List String)) :
    ∀ (vpcs : List (String × String)) (m : List (String × List String)) (calls : List String),
      getRoutesLoop fetch vpcs = Except.ok (m, calls) →
      m.map Prod.fst = vpcs.map Prod.fst ∧ calls = vpcs.map Prod.snd := by
  intro vpcs
  induction vpcs with
  | nil =>
    intro m calls h
    simp only [getRoutesLoop, Except.ok.injEq, Prod.mk.injEq] at h
    simp [← h.1, ← h.2]
  | cons p rest ih =>
    obtain ⟨vpc, gw⟩ := p
    intro m calls h
    cases hf : fetch gw with
    | none =>
      simp only [getRoutesLoop, hf] at h
      exact Except.noConfusion h
    | some rs =>
      cases hr : getRoutesLoop fetch rest with
      | error e =>
        simp only [getRoutesLoop, hf, hr] at h
        exact Except.noConfusion h
      | ok pr =>
        obtain ⟨m', calls'⟩ := pr
        simp only [getRoutesLoop, hf, hr, Except.ok.injEq, Prod.mk.injEq] at h
        obtain ⟨ihm, ihc⟩ := ih m' calls' hr
        simp [← h.1, ← h.2, ihm, ihc]

/-- C10: when get_vpc_routes succeeds, its fetch calls number exactly one
per distinct vpc_id of the input gateway details; the keys of the returned
mapping are exactly the distinct vpc_ids; and the vpcs dictionary driving
the fetches holds, for each vpc_id, the gw_name of the last gateway in the
list with that vpc_id, so only that gateway name is used. -/
theorem c10_one_fetch_per_vpc (fetch : String → Option (List String)) (gws : List Gateway)
    (m : List (String × List String)) (calls : List String)
    (h : get_vpc_routes fetch gws = Except.ok (m, calls)) :
    (m.map Prod.fst).Nodup
    ∧ (∀ v, v ∈ m.map Prod.fst ↔ v ∈ gws.map Gateway.vpc_id)
    ∧ calls.length = (m.map Prod.fst).length
    ∧ calls = (buildVpcs gws).map Prod.snd
    ∧ (∀ v, dictGet (buildVpcs gws) v = lastGwName gws v) := by
  obtain ⟨hm, hc⟩ := getRoutesLoop_ok fetch (buildVpcs gws) m calls h
  refine ⟨?_, ?_, ?_, hc, fun v => dictGet_buildVpcs gws v⟩
  · rw [hm]
    exact nodup_keys_buildVpcs gws
  · intro v
    rw [hm]
    exact mem_keys_buildVpcs gws v
  · rw [hm, hc]
    simp

/-- Witness for C10 on three gateways of which two share vpc_id v1: the
mapping keys are v1 and v2, two fetches are made, and the name fetched for
v1 is gwB, the later of the two gateways in v1. -/
theorem c10_one_fetch_per_vpc_witness :
    (mC10.map Prod.fst).Nodup
    ∧ ("v1" ∈ mC10.map Prod.fst ↔ "v1" ∈ gwsC10.map Gateway.vpc_id)
    ∧ callsC10.length = (mC10.map Prod.fst).length
    ∧ callsC10 = (buildVpcs gwsC10).map Prod.snd
    ∧ dictGet (buildVpcs gwsC10) "v1" = lastGwName gwsC10 "v1" := by
  obtain ⟨h1, h2, h3, h4, h5⟩ :=
    c10_one_fetch_per_vpc fetchC10 gwsC10 mC10 callsC10 rfl
  exact ⟨h1, h2 "v1", h3, h4, h5 "v1"⟩

theorem bundleLoop_spec :
    ∀ (files disk : List String), files.Nodup → disk.Nodup →
      (∀ f ∈ files, f ∈ disk) →
      (bundleLoop disk files).ok = true
      ∧ (bundleLoop disk files).entries = files
      ∧ (∀ x, x ∈ (bundleLoop disk files).disk ↔ x ∈ disk ∧ x ∉ files) := by
  intro files
  induction files with
  | nil =>
    intro disk _ _ _
    simp [bundleLoop]
  | cons f rest ih =>
    intro disk hnd hd hall
    have hf : f ∈ disk := hall f (List.mem_cons_self f rest)
    have hfninrest : f ∉ rest := (List.nodup_cons.mp hnd).1
    have hrestnd : rest.Nodup := (List.nodup_cons.mp hnd).2
    have herased : (disk.erase f).Nodup := hd.erase f
    have hsub : ∀ g ∈ rest, g ∈ disk.erase f := by
      intro g hg
      have hgd : g ∈ disk := hall g (List.mem_cons_of_mem f hg)
      have hne : g ≠ f := fun he => hfninrest (he ▸ hg)
      exact (List.mem_erase_of_ne hne).mpr hgd
    obtain ⟨h1, h2, h3⟩ := ih (disk.erase f) hrestnd herased hsub
    rw [show bundleLoop disk (f :: rest)
          = ⟨f :: (bundleLoop (disk.erase f) rest).entries,
             (bundleLoop (disk.erase f) rest).disk,
             (bundleLoop (disk.erase f) rest).ok⟩ by
        simp [bundleLoop, hf]]
    refine ⟨h1, by rw [h2], ?_⟩
    intro x
    rw [h3 x, hd.mem_erase_iff]
    simp only [List.mem_cons]
    tauto

/-- File list of main holds no duplicate names, whatever the flags. -/
theorem bundleFiles_nodup (aw vr : Bool) : (bundleFiles aw vr).Nodup := by
  cases aw <;> cases vr <;> decide

/-- C3: when every file of the bundle list is present in the staging area,
the bundling loop succeeds, the archive receives exactly one entry per
staged artifact under its own name and in list order, and none of the
staged files remains on disk afterwards. -/
theorem c3_bundle_roundtrip (aw vr : Bool) (disk : List String)
    (hd : disk.Nodup) (hall : ∀ f ∈ bundleFiles aw vr, f ∈ disk) :
    (bundleLoop disk (bundleFiles aw vr)).ok = true
    ∧ (bundleLoop disk (bundleFiles aw vr)).entries = bundleFiles aw vr
    ∧ (∀ f ∈ bundleFiles aw vr, (bundleLoop disk (bundleFiles aw vr)).entries.count f = 1)
    ∧ (∀ f ∈ bundleFiles aw vr, f ∉ (bundleLoop disk (bundleFiles aw vr)).disk) := by
  obtain ⟨h1, h2, h3⟩ :=
    bundleLoop_spec (bundleFiles aw vr) disk (bundleFiles_nodup aw vr) hd hall
  refine ⟨h1, h2, ?_, ?_⟩
  · intro f hf
    rw [h2]
    exact List.count_eq_one_of_mem (bundleFiles_nodup aw vr) hf
  · intro f hf hmem
    exact ((h3 f).mp hmem).2 hf

/-- Witness for C3 with both flags on and a staging area holding exactly
the expected files: the loop succeeds, firewall.tf is archived once, the
entry list equals the file list, and firewall.tf is gone from disk. -/
theorem c3_bundle_roundtrip_witness :
    (bundleLoop (bundleFiles true true) (bundleFiles true true)).ok = true
    ∧ (bundleLoop (bundleFiles true true) (bundleFiles true true)).entries
        = bundleFiles true true
    ∧ (bundleLoop (bundleFiles true true) (bundleFiles true true)).entries.count
        "firewall.tf" = 1
    ∧ "firewall.tf" ∉ (bundleLoop (bundleFiles true true) (bundleFiles true true)).disk := by
  obtain ⟨h1, h2, h3, h4⟩ :=
    c3_bundle_roundtrip true true (bundleFiles true true) (by decide) (fun f hf => hf)
  exact ⟨h1, h2, h3 "firewall.tf" (by decide), h4 "firewall.tf" (by decide)⟩

theorem tryExtract_ok_name (t : TfResponse) (r f : String)
    (h : tryExtract t r = Except.ok f) : f = r ++ ".tf" := by
  cases t with
  | notArchive => exact Except.noConfusion h
  | archive es =>
    by_cases hm : (r ++ ".tf") ∈ es
    · simp only [tryExtract, if_pos hm, Except.ok.injEq] at h
      exact h.symm
    · simp only [tryExtract, if_neg hm] at h
      exact Except.noConfusion h

theorem exportLoop_log_mem (resp : String → TfResponse) :
    ∀ (rs : List String) (r : String) (e : PyError), r ∈ rs →
      tryExtract (resp r) r = Except.error e →
      ("Could not extract TF resource " ++ r) ∈ (exportLoop resp rs).2 := by
  intro rs
  induction rs with
  | nil =>
    intro r e hr _
    exact absurd hr (List.not_mem_nil r)
  | cons a t ih =>
    intro r e hr he
    rcases List.mem_cons.mp hr with h1 | h2
    · subst h1
      simp [exportLoop, get_tf_resources, he]
    · exact List.mem_append_right _ (ih r e h2 he)

theorem exportLoop_file_mem (resp : String → TfResponse) :
    ∀ (rs : List String) (r' f : String), r' ∈ rs →
      tryExtract (resp r') r' = Except.ok f →
      (r' ++ ".tf") ∈ (exportLoop resp rs).1 := by
  intro rs
  induction rs with
  | nil =>
    intro r' f hr _
    exact absurd hr (List.not_mem_nil r')
  | cons a t ih =>
    intro r' f hr he
    rcases List.mem_cons.mp hr with h1 | h2
    · subst h1
      have hf : f = r' ++ ".tf" := tryExtract_ok_name (resp r') r' f he
      subst hf
      simp [exportLoop, get_tf_resources, he]
    · exact List.mem_append_right _ (ih r' f h2 he)

/-- C6: when the download for one resource kind of the fixed export list
is not a valid archive or lacks the expected entry, the run records the
message naming that resource kind, the bundling step still executes and
leaves an archive at the output path, and every other resource kind whose
extraction succeeds still lands its file on disk: no single export failure
aborts the pipeline. -/
theorem c6_extract_failure_isolated (resp : String → TfResponse)
    (otherStaged : List String) (aw vr : Bool) (r : String) (e : PyError)
    (hr : r ∈ resources) (he : tryExtract (resp r) r = Except.error e) :
    ("Could not extract TF resource " ++ r) ∈ (mainRun resp otherStaged aw vr).2
    ∧ (mainRun resp otherStaged aw vr).1.outputArchive.isSome = true
    ∧ ∀ r' f, r' ∈ resources → tryExtract (resp r') r' = Except.ok f →
        (r' ++ ".tf") ∈ (exportLoop resp resources).1 := by
  refine ⟨?_, ?_, ?_⟩
  · exact exportLoop_log_mem resp resources r e hr he
  · simp [mainRun, mainBundle]
  · intro r' f h1 h2
    exact exportLoop_file_mem resp resources r' f h1 h2

/-- Witness for C6: the firewall download is not an archive, every other
kind extracts; the log names firewall, the bundling step still runs, and
fqdn.tf is still extracted. -/
theorem c6_extract_failure_isolated_witness :
    ("Could not extract TF resource " ++ "firewall")
        ∈ (mainRun respC6 ["gateway_details.json"] false false).2
    ∧ (mainRun respC6 ["gateway_details.json"] false false).1.outputArchive.isSome = true
    ∧ ("fqdn" ++ ".tf") ∈ (exportLoop respC6 resources).1 := by
  obtain ⟨h1, h2, h3⟩ :=
    c6_extract_failure_isolated respC6 ["gateway_details.json"] false false
      "firewall" PyError.badZipFile (by decide) rfl
  exact ⟨h1, h2, h3 "fqdn" ("fqdn" ++ ".tf") (by decide) rfl⟩

end Avx
